import Mathlib

/-!
A shallow embedding of the authentication session manager designed in
`src/docs/auth2.md`: the provider abstraction (`BaseAuthProvider`), the
provider registry, the secure-storage adapter restricted to the four keys
the auth slice touches, the Redux auth-slice reducers, and the five async
thunks (`signIn`, `signUp`, `signOut`, `refreshSession`, `checkAuth`).

Modelling conventions:
* A promise rejection is `Except.error msg`, carrying the JS error message.
* JavaScript string truthiness (`if (x)`) is `strTruthy`; `x || d` on
  strings is `jsOr`.
* `JSON.stringify`/`JSON.parse` of the user record is modelled as the
  identity on `AuthUser` (these records round-trip through JSON), so the
  store holds a typed `AuthUser` at the `auth_user` key.
* The store is a record with one field per storage key, since the slice
  only ever reads or writes the four fixed keys.
* Failures of the storage backend and the current clock (`Date.now()`)
  are injected through `StorageEnv`.
* Dispatching a thunk applies the `pending` reducer, runs the thunk body,
  then applies the `fulfilled`/`rejected` reducer, mirroring
  `createAsyncThunk`; the `Event` list records storage mutations and
  reducer publication in execution order.
-/

namespace GluestackAuth

/-- User record (`AuthUser` in `base-provider.ts`). `expiresAt` models the
open-ended extra field (`[key: string]: any`) that `checkAuth` reads back
as `session.user.expiresAt`. -/
structure AuthUser where
  id : String
  email : String
  name : Option String := none
  picture : Option String := none
  expiresAt : Option Int := none
deriving DecidableEq, Repr

/-- Session record (`AuthSession` in `base-provider.ts`). -/
structure AuthSession where
  user : AuthUser
  accessToken : String
  refreshToken : Option String := none
  expiresAt : Option Int := none
deriving DecidableEq, Repr

/-- Provider response (`AuthResponse` in `base-provider.ts`). -/
structure AuthResponse where
  success : Bool
  session : Option AuthSession := none
  error : Option String := none
deriving DecidableEq, Repr

/-- Credentials map (`AuthCredentials` in `base-provider.ts`). -/
structure AuthCredentials where
  email : Option String := none
  password : Option String := none
  token : Option String := none
deriving DecidableEq, Repr

/-- A provider (`BaseAuthProvider`): `signUp` and `refreshSession` are
optional capabilities; each call either resolves (`Except.ok`) or rejects
with an error message. -/
structure BaseAuthProvider where
  id : String
  name : String
  enabled : Bool := true
  signIn : AuthCredentials → Except String AuthResponse
  signUp : Option (AuthCredentials → Except String AuthResponse) := none
  signOut : Except String Bool
  refreshSession : Option (String → Except String AuthResponse) := none

/-- Registry lookup (`AuthProviderRegistry.getProvider`). -/
def getProvider (reg : List BaseAuthProvider) (pid : String) :
    Option BaseAuthProvider :=
  reg.find? fun p => p.id == pid

/-- Registry insertion (`AuthProviderRegistry.registerProvider`): skips
disabled providers; re-registering an id overwrites in place (JS `Map.set`
keeps the original insertion position). -/
def registerProvider (reg : List BaseAuthProvider) (p : BaseAuthProvider) :
    List BaseAuthProvider :=
  if p.enabled then
    if reg.any fun q => q.id == p.id then
      reg.map fun q => if q.id == p.id then p else q
    else reg ++ [p]
  else reg

/-- Storage key constant from the auth slice. -/
def ACCESS_TOKEN_KEY : String := "auth_access_token"

/-- Storage key constant from the auth slice. -/
def REFRESH_TOKEN_KEY : String := "auth_refresh_token"

/-- Storage key constant from the auth slice. -/
def USER_KEY : String := "auth_user"

/-- Storage key constant from the auth slice. -/
def PROVIDER_ID_KEY : String := "auth_provider_id"

/-- The credential store, restricted to the four keys the slice uses; a
`none` field means the key is absent. The `auth_user` key holds the
JSON-serialized user, modelled as the typed record itself. -/
structure Storage where
  accessToken : Option String := none
  refreshToken : Option String := none
  userInfo : Option AuthUser := none
  providerId : Option String := none
deriving DecidableEq, Repr

/-- Storage with no key present. -/
def emptyStorage : Storage := {}

/-- Environment for a run: injected storage faults (a `some msg` makes the
corresponding operation reject with that message) and the current clock
value used by `Date.now()`. -/
structure StorageEnv where
  setErr : String → Option String := fun _ => none
  removeErr : String → Option String := fun _ => none
  getErr : String → Option String := fun _ => none
  now : Int := 0

/-- Fault-free environment at clock value `now`. -/
def okEnvAt (now : Int) : StorageEnv := { now := now }

/-- JavaScript `m || d` on strings: the empty string is falsy. -/
def jsOr (m d : String) : String := if m = "" then d else m

/-- JavaScript truthiness of a nullable string: `null`/`undefined` and the
empty string are falsy. -/
def strTruthy : Option String → Bool
  | none => false
  | some s => if s = "" then false else true

/-- JavaScript `x || undefined` on a nullable string, as used for the
restored session's `refreshToken`: absent and empty become `undefined`. -/
def jsOrUndef : Option String → Option String
  | none => none
  | some r => if r = "" then none else some r

/-- Model of `isTokenExpired`: `if (!expiresAt) return false; return
Date.now() > expiresAt;` with JS number truthiness (`0` is falsy). -/
def isTokenExpired (now : Int) (expiresAt : Option Int) : Bool :=
  match expiresAt with
  | none => false
  | some e => if e = 0 then false else decide (now > e)

/-- In-memory auth slice state (`AuthState`). -/
structure AuthState where
  isAuthenticated : Bool := false
  isLoading : Bool := false
  session : Option AuthSession := none
  providerId : Option String := none
  error : Option String := none
deriving DecidableEq, Repr

/-- The slice `initialState`. -/
def initialState : AuthState := {}

/-- The `clearError` reducer. -/
def clearError (st : AuthState) : AuthState := { st with error := none }

/-- Fulfilled payload of `signIn`/`signUp`/`refreshSession`/`checkAuth`. -/
structure AuthPayload where
  session : AuthSession
  providerId : String
deriving DecidableEq, Repr

/-- Observable events of a dispatch, in execution order: storage writes,
storage deletes, and the reducer publication that ends the dispatch
(`publishAuth` when the reducer sets `isAuthenticated := true`). -/
inductive Event where
  | setKey (key : String)
  | removeKey (key : String)
  | publishAuth
  | publishDone
deriving DecidableEq, Repr

/-- Reducer for `signIn.pending`. -/
def signInPending (st : AuthState) : AuthState :=
  { st with isLoading := true, error := none }

/-- Reducer for `signIn.fulfilled`. -/
def signInFulfilled (st : AuthState) (p : AuthPayload) : AuthState :=
  { st with
    isLoading := false
    isAuthenticated := true
    session := some p.session
    providerId := some p.providerId }

/-- Reducer for `signIn.rejected`. -/
def signInRejected (st : AuthState) (e : String) : AuthState :=
  { st with isLoading := false, error := some e }

/-- Reducer for `signUp.pending`. -/
def signUpPending (st : AuthState) : AuthState :=
  { st with isLoading := true, error := none }

/-- Reducer for `signUp.fulfilled`. -/
def signUpFulfilled (st : AuthState) (p : AuthPayload) : AuthState :=
  { st with
    isLoading := false
    isAuthenticated := true
    session := some p.session
    providerId := some p.providerId }

/-- Reducer for `signUp.rejected`. -/
def signUpRejected (st : AuthState) (e : String) : AuthState :=
  { st with isLoading := false, error := some e }

/-- Reducer for `signOut.pending`. -/
def signOutPending (st : AuthState) : AuthState :=
  { st with isLoading := true }

/-- Reducer for `signOut.fulfilled`. -/
def signOutFulfilled (st : AuthState) : AuthState :=
  { st with
    isLoading := false
    isAuthenticated := false
    session := none
    providerId := none }

/-- Reducer for `signOut.rejected`. -/
def signOutRejected (st : AuthState) : AuthState :=
  { st with
    isLoading := false
    isAuthenticated := false
    session := none
    providerId := none }

/-- Reducer for `checkAuth.pending`. -/
def checkAuthPending (st : AuthState) : AuthState :=
  { st with isLoading := true }

/-- Reducer for `checkAuth.fulfilled`. -/
def checkAuthFulfilled (st : AuthState) (p : AuthPayload) : AuthState :=
  { st with
    isLoading := false
    isAuthenticated := true
    session := some p.session
    providerId := some p.providerId }

/-- Reducer for `checkAuth.rejected`. -/
def checkAuthRejected (st : AuthState) : AuthState :=
  { st with
    isLoading := false
    isAuthenticated := false
    session := none
    providerId := none }

/-- Reducer for `refreshSession.pending`. -/
def refreshPending (st : AuthState) : AuthState :=
  { st with isLoading := true }

/-- Reducer for `refreshSession.fulfilled`. -/
def refreshFulfilled (st : AuthState) (p : AuthPayload) : AuthState :=
  { st with
    isLoading := false
    isAuthenticated := true
    session := some p.session
    providerId := some p.providerId }

/-- Reducer for `refreshSession.rejected`: note that it does not touch
`error`. -/
def refreshRejected (st : AuthState) : AuthState :=
  { st with
    isLoading := false
    isAuthenticated := false
    session := none
    providerId := none }

/-- Result of running a thunk payload creator: the storage after its
side effects, the storage events it performed, and resolution or
rejection. -/
structure ThunkOut (α : Type) where
  store : Storage
  events : List Event
  result : Except String α
deriving Repr

/-- The four sequential `await secureStorage.removeItem(k)` calls of the
teardown, all inside a single `try` block: a rejection aborts the
remaining removals (short-circuit), leaving the store half-cleared. -/
def removeAllKeys (env : StorageEnv) (store : Storage) (evs : List Event) :
    Storage × List Event × Option String :=
  match env.removeErr ACCESS_TOKEN_KEY with
  | some m => (store, evs, some m)
  | none =>
    let s1 : Storage := { store with accessToken := none }
    let e1 : List Event := evs ++ [Event.removeKey ACCESS_TOKEN_KEY]
    match env.removeErr REFRESH_TOKEN_KEY with
    | some m => (s1, e1, some m)
    | none =>
      let s2 : Storage := { s1 with refreshToken := none }
      let e2 : List Event := e1 ++ [Event.removeKey REFRESH_TOKEN_KEY]
      match env.removeErr USER_KEY with
      | some m => (s2, e2, some m)
      | none =>
        let s3 : Storage := { s2 with userInfo := none }
        let e3 : List Event := e2 ++ [Event.removeKey USER_KEY]
        match env.removeErr PROVIDER_ID_KEY with
        | some m => (s3, e3, some m)
        | none =>
          ({ s3 with providerId := none },
            e3 ++ [Event.removeKey PROVIDER_ID_KEY], none)

/-- Third persistence step shared by `signIn`/`signUp`/`refreshSession`:
`await setItem(USER_KEY, JSON.stringify(session.user))`. -/
def persistUser (env : StorageEnv) (sess : AuthSession) (store : Storage)
    (evs : List Event) : Storage × List Event × Option String :=
  match env.setErr USER_KEY with
  | some m => (store, evs, some m)
  | none =>
    ({ store with userInfo := some sess.user }, evs ++ [Event.setKey USER_KEY], none)

/-- Second persistence step: `if (session.refreshToken) await
setItem(REFRESH_TOKEN_KEY, session.refreshToken)` followed by the user
write. -/
def persistRefreshTok (env : StorageEnv) (sess : AuthSession) (store : Storage)
    (evs : List Event) : Storage × List Event × Option String :=
  if strTruthy sess.refreshToken then
    match env.setErr REFRESH_TOKEN_KEY with
    | some m => (store, evs, some m)
    | none =>
      persistUser env sess { store with refreshToken := sess.refreshToken }
        (evs ++ [Event.setKey REFRESH_TOKEN_KEY])
  else persistUser env sess store evs

/-- Persistence performed by `refreshSession`: access token, conditional
refresh token, serialized user — but not the provider id. -/
def persistCommon (env : StorageEnv) (sess : AuthSession) (store : Storage) :
    Storage × List Event × Option String :=
  match env.setErr ACCESS_TOKEN_KEY with
  | some m => (store, [], some m)
  | none =>
    persistRefreshTok env sess { store with accessToken := some sess.accessToken }
      [Event.setKey ACCESS_TOKEN_KEY]

/-- Persistence performed by `signIn`/`signUp`: the common writes followed
by `await setItem(PROVIDER_ID_KEY, providerId)`. -/
def persistSession (env : StorageEnv) (pid : String) (sess : AuthSession)
    (store : Storage) : Storage × List Event × Option String :=
  match persistCommon env sess store with
  | (store2, evs2, some m) => (store2, evs2, some m)
  | (store2, evs2, none) =>
    match env.setErr PROVIDER_ID_KEY with
    | some m => (store2, evs2, some m)
    | none =>
      ({ store2 with providerId := some pid },
        evs2 ++ [Event.setKey PROVIDER_ID_KEY], none)

/-- Rejection message used when a provider response reports failure: the
thrown `response.error || fallback1` message flows through the catch as
`error.message || fallback2`. -/
def respErrMsg (resp : AuthResponse) (fallback1 fallback2 : String) : String :=
  jsOr (jsOr (resp.error.getD "") fallback1) fallback2

/-- Payload creator of the `signIn` thunk (`auth/signIn`). -/
def signInThunk (reg : List BaseAuthProvider) (pid : String)
    (creds : AuthCredentials) (env : StorageEnv) (store : Storage) :
    ThunkOut AuthPayload :=
  match getProvider reg pid with
  | none =>
    ⟨store, [], .error (jsOr ("Provider " ++ pid ++ " not found") "Authentication failed")⟩
  | some provider =>
    match provider.signIn creds with
    | .error e => ⟨store, [], .error (jsOr e "Authentication failed")⟩
    | .ok resp =>
      match resp.session with
      | some sess =>
        if resp.success then
          match persistSession env pid sess store with
          | (store2, evs2, some m) =>
            ⟨store2, evs2, .error (jsOr m "Authentication failed")⟩
          | (store2, evs2, none) => ⟨store2, evs2, .ok ⟨sess, pid⟩⟩
        else ⟨store, [], .error (respErrMsg resp "Sign in failed" "Authentication failed")⟩
      | none => ⟨store, [], .error (respErrMsg resp "Sign in failed" "Authentication failed")⟩

/-- Payload creator of the `signUp` thunk (`auth/signUp`); the same
message is thrown when the provider is missing or when it lacks the
`signUp` capability. -/
def signUpThunk (reg : List BaseAuthProvider) (pid : String)
    (creds : AuthCredentials) (env : StorageEnv) (store : Storage) :
    ThunkOut AuthPayload :=
  match getProvider reg pid with
  | none =>
    ⟨store, [],
      .error (jsOr ("Provider " ++ pid ++ " does not support sign up") "Registration failed")⟩
  | some provider =>
    match provider.signUp with
    | none =>
      ⟨store, [],
        .error (jsOr ("Provider " ++ pid ++ " does not support sign up") "Registration failed")⟩
    | some doSignUp =>
      match doSignUp creds with
      | .error e => ⟨store, [], .error (jsOr e "Registration failed")⟩
      | .ok resp =>
        match resp.session with
        | some sess =>
          if resp.success then
            match persistSession env pid sess store with
            | (store2, evs2, some m) =>
              ⟨store2, evs2, .error (jsOr m "Registration failed")⟩
            | (store2, evs2, none) => ⟨store2, evs2, .ok ⟨sess, pid⟩⟩
          else ⟨store, [], .error (respErrMsg resp "Sign up failed" "Registration failed")⟩
        | none => ⟨store, [], .error (respErrMsg resp "Sign up failed" "Registration failed")⟩

/-- Teardown step of the `signOut` thunk (`auth/signOut`): the four
sequential removals; a failing removal aborts the rest. -/
def signOutClear (env : StorageEnv) (store : Storage) : ThunkOut Bool :=
  match removeAllKeys env store [] with
  | (store2, evs2, some m) => ⟨store2, evs2, .error (jsOr m "Sign out failed")⟩
  | (store2, evs2, none) => ⟨store2, evs2, .ok true⟩

/-- Rest of the `signOut` payload creator: resolve the provider from the
in-memory state, invoke its remote `signOut` (a rejection skips the
teardown entirely), then clear the keys. -/
def signOutThunk (reg : List BaseAuthProvider) (env : StorageEnv)
    (st : AuthState) (store : Storage) : ThunkOut Bool :=
  if strTruthy st.providerId then
    match getProvider reg (st.providerId.getD "") with
    | some provider =>
      match provider.signOut with
      | .error e => ⟨store, [], .error (jsOr e "Sign out failed")⟩
      | .ok _ => signOutClear env store
    | none => signOutClear env store
  else signOutClear env store

/-- Payload creator of the `refreshSession` thunk (`auth/refreshSession`):
reads the provider id from the in-memory state and the refresh token from
storage; persists the refreshed session without rewriting the provider-id
key; never removes any key on failure. -/
def refreshThunk (reg : List BaseAuthProvider) (env : StorageEnv)
    (st : AuthState) (store : Storage) : ThunkOut AuthPayload :=
  match env.getErr REFRESH_TOKEN_KEY with
  | some m => ⟨store, [], .error (jsOr m "Token refresh failed")⟩
  | none =>
    if strTruthy st.providerId && strTruthy store.refreshToken then
      let pid := st.providerId.getD ""
      match getProvider reg pid with
      | none =>
        ⟨store, [],
          .error (jsOr ("Provider " ++ pid ++ " does not support session refresh")
            "Token refresh failed")⟩
      | some provider =>
        match provider.refreshSession with
        | none =>
          ⟨store, [],
            .error (jsOr ("Provider " ++ pid ++ " does not support session refresh")
              "Token refresh failed")⟩
        | some doRefresh =>
          match doRefresh (store.refreshToken.getD "") with
          | .error e => ⟨store, [], .error (jsOr e "Token refresh failed")⟩
          | .ok result =>
            match result.session with
            | some sess =>
              if result.success then
                match persistCommon env sess store with
                | (store2, evs2, some m) =>
                  ⟨store2, evs2, .error (jsOr m "Token refresh failed")⟩
                | (store2, evs2, none) => ⟨store2, evs2, .ok ⟨sess, pid⟩⟩
              else
                ⟨store, [],
                  .error (respErrMsg result "Session refresh failed" "Token refresh failed")⟩
            | none =>
              ⟨store, [],
                .error (respErrMsg result "Session refresh failed" "Token refresh failed")⟩
    else ⟨store, [], .error (jsOr "No active session found" "Token refresh failed")⟩

/-- Result of a full dispatch: the auth state after the final reducer, the
storage, the event trace and the settled thunk result. -/
structure DispatchOut (α : Type) where
  state : AuthState
  store : Storage
  events : List Event
  result : Except String α
deriving Repr

/-- Dispatch of the `signIn` thunk: `pending` reducer, payload creator,
then `fulfilled`/`rejected` reducer. -/
def dispatchSignIn (reg : List BaseAuthProvider) (env : StorageEnv)
    (pid : String) (creds : AuthCredentials) (st : AuthState)
    (store : Storage) : DispatchOut AuthPayload :=
  let st1 := signInPending st
  match signInThunk reg pid creds env store with
  | ⟨store2, evs, .ok p⟩ =>
    ⟨signInFulfilled st1 p, store2, evs ++ [Event.publishAuth], .ok p⟩
  | ⟨store2, evs, .error e⟩ =>
    ⟨signInRejected st1 e, store2, evs ++ [Event.publishDone], .error e⟩

/-- Dispatch of the `signUp` thunk. -/
def dispatchSignUp (reg : List BaseAuthProvider) (env : StorageEnv)
    (pid : String) (creds : AuthCredentials) (st : AuthState)
    (store : Storage) : DispatchOut AuthPayload :=
  let st1 := signUpPending st
  match signUpThunk reg pid creds env store with
  | ⟨store2, evs, .ok p⟩ =>
    ⟨signUpFulfilled st1 p, store2, evs ++ [Event.publishAuth], .ok p⟩
  | ⟨store2, evs, .error e⟩ =>
    ⟨signUpRejected st1 e, store2, evs ++ [Event.publishDone], .error e⟩

/-- Dispatch of the `signOut` thunk. -/
def dispatchSignOut (reg : List BaseAuthProvider) (env : StorageEnv)
    (st : AuthState) (store : Storage) : DispatchOut Bool :=
  let st1 := signOutPending st
  match signOutThunk reg env st1 store with
  | ⟨store2, evs, .ok b⟩ =>
    ⟨signOutFulfilled st1, store2, evs ++ [Event.publishDone], .ok b⟩
  | ⟨store2, evs, .error e⟩ =>
    ⟨signOutRejected st1, store2, evs ++ [Event.publishDone], .error e⟩

/-- Dispatch of the `refreshSession` thunk. -/
def dispatchRefresh (reg : List BaseAuthProvider) (env : StorageEnv)
    (st : AuthState) (store : Storage) : DispatchOut AuthPayload :=
  let st1 := refreshPending st
  match refreshThunk reg env st1 store with
  | ⟨store2, evs, .ok p⟩ =>
    ⟨refreshFulfilled st1 p, store2, evs ++ [Event.publishAuth], .ok p⟩
  | ⟨store2, evs, .error e⟩ =>
    ⟨refreshRejected st1, store2, evs ++ [Event.publishDone], .error e⟩

/-- Catch block of `checkAuth`: clear the four keys (a failing removal
propagates the raw storage error) and settle rejected; the `rejected`
reducer applies in either case. -/
def checkAuthCatch (env : StorageEnv) (st1 : AuthState) (store : Storage)
    (evs : List Event) (msg : String) : DispatchOut AuthPayload :=
  match removeAllKeys env store evs with
  | (store2, evs2, some m) =>
    ⟨checkAuthRejected st1, store2, evs2 ++ [Event.publishDone], .error m⟩
  | (store2, evs2, none) =>
    ⟨checkAuthRejected st1, store2, evs2 ++ [Event.publishDone],
      .error (jsOr msg "Authentication check failed")⟩

/-- Dispatch of the `checkAuth` thunk (`auth/checkAuth`), the restore
operation: reads the four keys, rebuilds the session without any
session-level `expiresAt`, checks expiry on `user.expiresAt`, and on an
expired token with a stored refresh token delegates to a nested dispatch
of `refreshSession` (whose `unwrap()` rethrows a plain string, so the
catch falls back to the generic message). -/
def dispatchCheckAuth (reg : List BaseAuthProvider) (env : StorageEnv)
    (st : AuthState) (store : Storage) : DispatchOut AuthPayload :=
  let st1 := checkAuthPending st
  match env.getErr ACCESS_TOKEN_KEY with
  | some m => checkAuthCatch env st1 store [] m
  | none =>
  match env.getErr REFRESH_TOKEN_KEY with
  | some m => checkAuthCatch env st1 store [] m
  | none =>
  match env.getErr USER_KEY with
  | some m => checkAuthCatch env st1 store [] m
  | none =>
  match env.getErr PROVIDER_ID_KEY with
  | some m => checkAuthCatch env st1 store [] m
  | none =>
  match store.accessToken, store.userInfo, store.providerId with
  | some acc, some user, some pid =>
    if acc = "" ∨ pid = "" then
      checkAuthCatch env st1 store [] "No active session found"
    else
      let sess : AuthSession :=
        { user := user
          accessToken := acc
          refreshToken := jsOrUndef store.refreshToken
          expiresAt := none }
      match user.expiresAt with
      | some e =>
        if e ≠ 0 ∧ isTokenExpired env.now (some e) then
          if strTruthy store.refreshToken then
            let o := dispatchRefresh reg env st1 store
            match o.result with
            | .ok p =>
              ⟨checkAuthFulfilled o.state p, o.store,
                o.events ++ [Event.publishAuth], .ok p⟩
            | .error _ => checkAuthCatch env o.state o.store o.events ""
          else checkAuthCatch env st1 store [] "Session expired"
        else
          ⟨checkAuthFulfilled st1 ⟨sess, pid⟩, store, [Event.publishAuth],
            .ok ⟨sess, pid⟩⟩
      | none =>
        ⟨checkAuthFulfilled st1 ⟨sess, pid⟩, store, [Event.publishAuth],
          .ok ⟨sess, pid⟩⟩
  | _, _, _ => checkAuthCatch env st1 store [] "No active session found"

/-! Concrete fixtures used to evaluate the model at specific inputs. -/

/-- Fault-free environment at clock 0. -/
def okEnv : StorageEnv := {}

/-- A sample user. -/
def demoUser : AuthUser := { id := "1", email := "a@b.com" }

/-- A sample session with both tokens. -/
def demoSession : AuthSession :=
  { user := demoUser, accessToken := "T1", refreshToken := some "R1" }

/-- Sample password credentials. -/
def demoCreds : AuthCredentials :=
  { email := some "a@b.com", password := some "pw" }

/-- A well-behaved credentials provider. -/
def demoProvider : BaseAuthProvider :=
  { id := "credentials"
    name := "Credentials"
    signIn := fun _ => .ok { success := true, session := some demoSession }
    signUp := some fun _ => .ok { success := true, session := some demoSession }
    signOut := .ok true
    refreshSession := some fun _ => .ok { success := true, session := some demoSession } }

/-- Registry holding the well-behaved provider. -/
def demoReg : List BaseAuthProvider := [demoProvider]

/-- State with a `signIn` already in flight. -/
def inFlightState : AuthState := { isLoading := true }

/-- A provider whose remote `signOut` call rejects. -/
def failSignOutProvider : BaseAuthProvider :=
  { id := "bad"
    name := "Bad"
    signIn := fun _ => .error "no"
    signOut := .error "remote sign out failed" }

/-- Registry holding the provider with the failing remote sign-out. -/
def badReg : List BaseAuthProvider := [failSignOutProvider]

/-- Authenticated state pointing at the failing provider. -/
def badState : AuthState :=
  { isAuthenticated := true, session := some demoSession, providerId := some "bad" }

/-- Storage with all four keys present, provider id `bad`. -/
def fullStorageBad : Storage :=
  { accessToken := some "T1", refreshToken := some "R1"
    userInfo := some demoUser, providerId := some "bad" }

/-- A provider without the `refreshSession` capability (and without
`signUp`). -/
def noRefreshProvider : BaseAuthProvider :=
  { id := "norefresh"
    name := "NoRefresh"
    signIn := fun _ => .ok { success := true, session := some demoSession }
    signOut := .ok true }

/-- Registry holding only the capability-poor provider. -/
def noRefreshReg : List BaseAuthProvider := [noRefreshProvider]

/-- Authenticated state pointing at the capability-poor provider. -/
def noRefreshState : AuthState :=
  { isAuthenticated := true, session := some demoSession
    providerId := some "norefresh" }

/-- Storage with all four keys present, provider id `norefresh`. -/
def noRefreshStore : Storage :=
  { accessToken := some "T1", refreshToken := some "R1"
    userInfo := some demoUser, providerId := some "norefresh" }

/-- A session whose provider issued no refresh token. -/
def sessNoRefresh : AuthSession := { user := demoUser, accessToken := "T4" }

/-- Provider returning the refresh-token-free session. -/
def provNoRefreshTok : BaseAuthProvider :=
  { id := "credentials"
    name := "Credentials"
    signIn := fun _ => .ok { success := true, session := some sessNoRefresh }
    signOut := .ok true }

/-- Registry for the refresh-token-free provider. -/
def regNoRefreshTok : List BaseAuthProvider := [provNoRefreshTok]

/-- Storage holding a stale refresh token from an earlier session. -/
def staleStore : Storage := { refreshToken := some "stale" }

/-- A session carrying a session-level `expiresAt`. -/
def sessWithExpiry : AuthSession :=
  { user := demoUser, accessToken := "T1", refreshToken := some "R1"
    expiresAt := some 999999 }

/-- Provider returning the session with a session-level expiry. -/
def provWithExpiry : BaseAuthProvider :=
  { id := "credentials"
    name := "Credentials"
    signIn := fun _ => .ok { success := true, session := some sessWithExpiry }
    signOut := .ok true }

/-- Registry for the session-level-expiry provider. -/
def regWithExpiry : List BaseAuthProvider := [provWithExpiry]

/-- The session of the §8 scenario: `expiresAt` in the past relative to
clock 5000. -/
def sessExpired : AuthSession :=
  { user := demoUser, accessToken := "T1", refreshToken := some "R1"
    expiresAt := some 4000 }

/-- The refreshed session the provider would hand out. -/
def sessRefreshed : AuthSession :=
  { user := demoUser, accessToken := "T2", refreshToken := some "R2" }

/-- Provider of the §8 scenario: `signIn` yields the expired session,
`refreshSession` yields the new one. -/
def provScenario : BaseAuthProvider :=
  { id := "credentials"
    name := "Credentials"
    signIn := fun _ => .ok { success := true, session := some sessExpired }
    signOut := .ok true
    refreshSession := some fun _ => .ok { success := true, session := some sessRefreshed } }

/-- Registry of the §8 scenario. -/
def regScenario : List BaseAuthProvider := [provScenario]

/-- Provider whose `signIn` resolves with a failure response. -/
def provFailing : BaseAuthProvider :=
  { id := "flaky"
    name := "Flaky"
    signIn := fun _ => .ok { success := false, error := some "Invalid credentials" }
    signOut := .ok true }

/-- Registry of the failing provider. -/
def regFailing : List BaseAuthProvider := [provFailing]

/-- Authenticated state pointing at the failing provider. -/
def authedFlakyState : AuthState :=
  { isAuthenticated := true, session := some demoSession, providerId := some "flaky" }

/-- A degenerate session with empty access token and empty user id. -/
def emptySession : AuthSession :=
  { user := { id := "", email := "" }, accessToken := "" }

/-- Provider happily returning the degenerate session. -/
def provEmpty : BaseAuthProvider :=
  { id := "empty"
    name := "Empty"
    signIn := fun _ => .ok { success := true, session := some emptySession }
    signOut := .ok true }

/-- Registry of the degenerate provider. -/
def regEmpty : List BaseAuthProvider := [provEmpty]

/-- Authenticated state pointing at the well-behaved provider. -/
def demoSignedInState : AuthState :=
  { isAuthenticated := true, session := some demoSession
    providerId := some "credentials" }

/-- Storage with all four keys present, provider id `credentials`. -/
def demoFullStorage : Storage :=
  { accessToken := some "T1", refreshToken := some "R1"
    userInfo := some demoUser, providerId := some "credentials" }

/-- A stored user record carrying the `expiresAt` extra, already expired
at clock 5000. -/
def expiredUser : AuthUser :=
  { id := "1", email := "a@b.com", expiresAt := some 4000 }

/-- Storage holding the expired user together with a refresh token. -/
def expiredUserStore : Storage :=
  { accessToken := some "T1", refreshToken := some "R1"
    userInfo := some expiredUser, providerId := some "credentials" }

/-- Storage holding the expired user without any refresh token. -/
def expiredUserStoreNoRefresh : Storage :=
  { accessToken := some "T1", userInfo := some expiredUser
    providerId := some "credentials" }

/-- The session as `checkAuth` rebuilds it from storage after a demo
sign-in: the same tokens and user, but no session-level `expiresAt`. -/
def restoredDemoSession : AuthSession :=
  { user := demoUser, accessToken := "T1", refreshToken := some "R1" }

/-! Helper lemmas. -/

/-- Appending to a nonempty string yields a nonempty string. -/
theorem append_ne_empty_left (a b : String) (h : a ≠ "") : (a ++ b) ≠ "" := by
  intro hab
  apply h
  cases a with
  | mk da =>
    cases b with
    | mk db =>
      have h0 : da ++ db = [] := congrArg String.data hab
      rw [List.append_eq_nil] at h0
      rw [h0.1]

/-- `jsOr` keeps a nonempty first argument. -/
theorem jsOr_of_ne (m d : String) (h : m ≠ "") : jsOr m d = m := by
  unfold jsOr
  simp [h]

/-! Claim C10. -/

/-- C10: for every auth state, the `clearError` reducer sets the `error`
field to `none` and leaves `isAuthenticated`, `isLoading`, `session` and
`providerId` unchanged. -/
theorem clearError_frame (st : AuthState) :
    (clearError st).error = none ∧
    (clearError st).isAuthenticated = st.isAuthenticated ∧
    (clearError st).isLoading = st.isLoading ∧
    (clearError st).session = st.session ∧
    (clearError st).providerId = st.providerId :=
  ⟨rfl, rfl, rfl, rfl, rfl⟩

/-! Claim C1. -/

/-- C1 counterexample: with a `signIn` already in flight
(`isLoading = true`), a second `signIn` dispatch is not rejected with an
operation-in-progress error — it runs to successful completion. -/
theorem signIn_concurrent_not_rejected_counterexample :
    inFlightState.isLoading = true ∧
    (dispatchSignIn demoReg okEnv "credentials" demoCreds inFlightState
        emptyStorage).result = Except.ok ⟨demoSession, "credentials"⟩ :=
  ⟨rfl, rfl⟩

/-- C1 (amended): the slice has no single-flight gate — the `signIn`
payload creator never consults the in-memory auth state, so a dispatch
issued while another operation is in flight produces exactly the same
storage, events and settled result as from any other prior state; a
concurrent call is neither rejected with an in-progress error nor queued,
and each dispatch's reducers apply independently of the other's. -/
theorem signIn_no_single_flight_gate (reg : List BaseAuthProvider)
    (env : StorageEnv) (pid : String) (creds : AuthCredentials)
    (store : Storage) (st1 st2 : AuthState) :
    (dispatchSignIn reg env pid creds st1 store).result =
      (dispatchSignIn reg env pid creds st2 store).result ∧
    (dispatchSignIn reg env pid creds st1 store).store =
      (dispatchSignIn reg env pid creds st2 store).store ∧
    (dispatchSignIn reg env pid creds st1 store).events =
      (dispatchSignIn reg env pid creds st2 store).events := by
  unfold dispatchSignIn
  rcases h : signInThunk reg pid creds env store with ⟨s, e, r⟩
  cases r <;> simp

/-! Claim C2, counterexample. -/

/-- C2 counterexample: when the active provider's remote `signOut`
rejects, the teardown is skipped entirely — none of the four keys is
removed, so storage is left fully populated rather than cleared. -/
theorem signOut_provider_failure_counterexample :
    (dispatchSignOut badReg okEnv badState fullStorageBad).store =
      fullStorageBad ∧
    fullStorageBad.accessToken = some "T1" ∧
    (dispatchSignOut badReg okEnv badState fullStorageBad).result =
      Except.error "remote sign out failed" :=
  ⟨rfl, rfl, rfl⟩

/-! Claim C7. -/

/-- C7 counterexample: a failed `signIn` from a state that is already
authenticated leaves `isAuthenticated = true` and the old session
exposed; the rejected reducer only clears `isLoading` and sets `error`. -/
theorem signIn_failure_state_counterexample :
    (dispatchSignIn regFailing okEnv "flaky" demoCreds authedFlakyState
        emptyStorage).result = Except.error "Invalid credentials" ∧
    (dispatchSignIn regFailing okEnv "flaky" demoCreds authedFlakyState
        emptyStorage).state.isAuthenticated = true ∧
    (dispatchSignIn regFailing okEnv "flaky" demoCreds authedFlakyState
        emptyStorage).state.session = some demoSession ∧
    (dispatchSignIn regFailing okEnv "flaky" demoCreds authedFlakyState
        emptyStorage).state.error = some "Invalid credentials" :=
  ⟨rfl, rfl, rfl, rfl⟩

/-- C7 (amended): a failed `signIn` sets `error` to the failure message
and `isLoading` to `false` (it never stays in the loading state), but
leaves `isAuthenticated`, `session` and `providerId` exactly as they were
before the dispatch; in particular, a state that was unauthenticated with
no session stays so, while an authenticated state keeps its session. -/
theorem signIn_failure_frame_amended (reg : List BaseAuthProvider)
    (env : StorageEnv) (pid : String) (creds : AuthCredentials)
    (st : AuthState) (store : Storage) (e : String)
    (hres : (dispatchSignIn reg env pid creds st store).result =
      Except.error e) :
    (dispatchSignIn reg env pid creds st store).state =
      { st with isLoading := false, error := some e } := by
  unfold dispatchSignIn at hres ⊢
  rcases h : signInThunk reg pid creds env store with ⟨s, e2, r⟩
  rw [h] at hres
  cases r with
  | ok p => simp at hres
  | error e3 =>
    have he : e3 = e := by simpa using hres
    subst he
    rfl

/-- C7 witness: the amended failed-sign-in theorem applied to the
provider whose response reports failure, starting from the authenticated
state. -/
theorem signIn_failure_frame_amended_witness :
    (dispatchSignIn regFailing okEnv "flaky" demoCreds authedFlakyState
        emptyStorage).state =
      { authedFlakyState with
        isLoading := false
        error := some "Invalid credentials" } :=
  signIn_failure_frame_amended regFailing okEnv "flaky" demoCreds
    authedFlakyState emptyStorage "Invalid credentials" rfl

/-! Claim C8. -/

/-- C8: calling `signUp` against a registered provider that lacks the
`signUp` capability rejects with the unsupported-operation message
`Provider <id> does not support sign up`, performs no credential-store
write (storage and its event trace are untouched), and a previously
unauthenticated state remains unauthenticated with the error surfaced and
`isLoading` back to `false`. -/
theorem signUp_unsupported_rejects (reg : List BaseAuthProvider)
    (env : StorageEnv) (pid : String) (creds : AuthCredentials)
    (p : BaseAuthProvider) (st : AuthState) (store : Storage)
    (hp : getProvider reg pid = some p) (hcap : p.signUp = none)
    (hauth : st.isAuthenticated = false) (hsess : st.session = none)
    (hpid : st.providerId = none) :
    (dispatchSignUp reg env pid creds st store).result =
      Except.error ("Provider " ++ pid ++ " does not support sign up") ∧
    (dispatchSignUp reg env pid creds st store).store = store ∧
    (dispatchSignUp reg env pid creds st store).events =
      [Event.publishDone] ∧
    (dispatchSignUp reg env pid creds st store).state.isAuthenticated = false ∧
    (dispatchSignUp reg env pid creds st store).state.session = none ∧
    (dispatchSignUp reg env pid creds st store).state.providerId = none ∧
    (dispatchSignUp reg env pid creds st store).state.isLoading = false ∧
    (dispatchSignUp reg env pid creds st store).state.error =
      some ("Provider " ++ pid ++ " does not support sign up") := by
  have hmsg : ("Provider " ++ pid ++ " does not support sign up") ≠ "" :=
    append_ne_empty_left _ _ (append_ne_empty_left "Provider " pid (by decide))
  unfold dispatchSignUp signUpThunk
  simp [hp, hcap, jsOr_of_ne _ _ hmsg, signUpPending, signUpRejected,
    hauth, hsess, hpid]

/-- C8 witness: the unsupported-sign-up theorem applied to the provider
registered without the capability, from the initial state. -/
theorem signUp_unsupported_rejects_witness :
    (dispatchSignUp noRefreshReg okEnv "norefresh" demoCreds initialState
        emptyStorage).result =
      Except.error "Provider norefresh does not support sign up" ∧
    (dispatchSignUp noRefreshReg okEnv "norefresh" demoCreds initialState
        emptyStorage).store = emptyStorage := by
  have h := signUp_unsupported_rejects noRefreshReg okEnv "norefresh"
    demoCreds noRefreshProvider initialState emptyStorage rfl rfl rfl rfl rfl
  exact ⟨h.1, h.2.1⟩

/-! Analysis of the persistence helpers on their success paths. -/

/-- When the user-write step succeeds it only changes the `auth_user`
key and appends only set-events. -/
theorem persistUser_ok (env : StorageEnv) (sess : AuthSession)
    (store : Storage) (evs : List Event) (store2 : Storage)
    (evs2 : List Event)
    (h : persistUser env sess store evs = (store2, evs2, none)) :
    store2.accessToken = store.accessToken ∧
    store2.refreshToken = store.refreshToken ∧
    store2.providerId = store.providerId ∧
    store2.userInfo = some sess.user ∧
    ∀ ev ∈ evs2, ev ∈ evs ∨ ∃ k, ev = Event.setKey k := by
  unfold persistUser at h
  split at h
  · simp at h
  · simp only [Prod.mk.injEq] at h
    obtain ⟨h1, h2, -⟩ := h
    subst h1
    subst h2
    refine ⟨rfl, rfl, rfl, rfl, fun ev hin => ?_⟩
    rcases List.mem_append.mp hin with hl | hr
    · exact Or.inl hl
    · exact Or.inr ⟨USER_KEY, by simpa using hr⟩

/-- When the conditional refresh-token write and the user write succeed,
the access-token and provider-id keys are untouched, the refresh-token
key is updated exactly when the session carries a truthy refresh token,
and only set-events are appended. -/
theorem persistRefreshTok_ok (env : StorageEnv) (sess : AuthSession)
    (store : Storage) (evs : List Event) (store2 : Storage)
    (evs2 : List Event)
    (h : persistRefreshTok env sess store evs = (store2, evs2, none)) :
    store2.accessToken = store.accessToken ∧
    store2.providerId = store.providerId ∧
    store2.userInfo = some sess.user ∧
    (strTruthy sess.refreshToken = true →
      store2.refreshToken = sess.refreshToken) ∧
    (strTruthy sess.refreshToken = false →
      store2.refreshToken = store.refreshToken) ∧
    ∀ ev ∈ evs2, ev ∈ evs ∨ ∃ k, ev = Event.setKey k := by
  unfold persistRefreshTok at h
  split at h
  case isTrue ht =>
    split at h
    · simp at h
    · obtain ⟨ha, hr, hp2, hu2, hev⟩ := persistUser_ok _ _ _ _ _ _ h
      refine ⟨ha, hp2, hu2, fun _ => hr, fun hf => ?_, fun ev hin => ?_⟩
      · rw [ht] at hf
        exact absurd hf (by simp)
      · rcases hev ev hin with hmem | hk
        · rcases List.mem_append.mp hmem with hl | hr2
          · exact Or.inl hl
          · exact Or.inr ⟨REFRESH_TOKEN_KEY, by simpa using hr2⟩
        · exact Or.inr hk
  case isFalse ht =>
    obtain ⟨ha, hr, hp2, hu2, hev⟩ := persistUser_ok _ _ _ _ _ _ h
    refine ⟨ha, hp2, hu2, fun htr => ?_, fun _ => hr, hev⟩
    rw [htr] at ht
    exact absurd rfl ht

/-- Success analysis of the writes shared by `signIn`, `signUp` and
`refreshSession`: access token, conditional refresh token, user. -/
theorem persistCommon_ok (env : StorageEnv) (sess : AuthSession)
    (store : Storage) (store2 : Storage) (evs2 : List Event)
    (h : persistCommon env sess store = (store2, evs2, none)) :
    store2.accessToken = some sess.accessToken ∧
    store2.providerId = store.providerId ∧
    store2.userInfo = some sess.user ∧
    (strTruthy sess.refreshToken = true →
      store2.refreshToken = sess.refreshToken) ∧
    (strTruthy sess.refreshToken = false →
      store2.refreshToken = store.refreshToken) ∧
    ∀ ev ∈ evs2, ∃ k, ev = Event.setKey k := by
  unfold persistCommon at h
  split at h
  · simp at h
  · obtain ⟨ha, hp2, hu2, ht, hf, hev⟩ := persistRefreshTok_ok _ _ _ _ _ _ h
    refine ⟨ha, hp2, hu2, ht, hf, fun ev hin => ?_⟩
    rcases hev ev hin with hmem | hk
    · exact ⟨ACCESS_TOKEN_KEY, by simpa using hmem⟩
    · exact hk

/-- Success analysis of the full `signIn`/`signUp` persistence: the
common writes followed by the provider-id write. -/
theorem persistSession_ok (env : StorageEnv) (pid : String)
    (sess : AuthSession) (store store2 : Storage) (evs2 : List Event)
    (h : persistSession env pid sess store = (store2, evs2, none)) :
    store2.accessToken = some sess.accessToken ∧
    store2.userInfo = some sess.user ∧
    store2.providerId = some pid ∧
    (strTruthy sess.refreshToken = true →
      store2.refreshToken = sess.refreshToken) ∧
    (strTruthy sess.refreshToken = false →
      store2.refreshToken = store.refreshToken) ∧
    ∀ ev ∈ evs2, ∃ k, ev = Event.setKey k := by
  unfold persistSession at h
  split at h
  case h_1 store3 evs3 m heq => simp at h
  case h_2 store3 evs3 heq =>
    split at h
    · simp at h
    · simp only [Prod.mk.injEq] at h
      obtain ⟨h1, h2, -⟩ := h
      subst h1
      subst h2
      obtain ⟨ha, hp2, hu2, ht, hf, hev⟩ := persistCommon_ok _ _ _ _ _ heq
      refine ⟨ha, hu2, rfl, ht, hf, fun ev hin => ?_⟩
      rcases List.mem_append.mp hin with hl | hr
      · exact hev ev hl
      · exact ⟨PROVIDER_ID_KEY, by simpa using hr⟩

/-- Shape of a successful `signIn` thunk run: the payload's provider id is
the requested one, the store holds the session's access token, user and
the provider id, the refresh-token key follows the session's truthy
refresh token (otherwise it is untouched), and the thunk performs only
set-events. -/
theorem signInThunk_ok_shape (reg : List BaseAuthProvider) (pid : String)
    (creds : AuthCredentials) (env : StorageEnv) (store : Storage)
    (o : ThunkOut AuthPayload) (p : AuthPayload)
    (ho : signInThunk reg pid creds env store = o)
    (hres : o.result = Except.ok p) :
    p.providerId = pid ∧
    o.store.accessToken = some p.session.accessToken ∧
    o.store.userInfo = some p.session.user ∧
    o.store.providerId = some pid ∧
    (strTruthy p.session.refreshToken = true →
      o.store.refreshToken = p.session.refreshToken) ∧
    (strTruthy p.session.refreshToken = false →
      o.store.refreshToken = store.refreshToken) ∧
    ∀ ev ∈ o.events, ∃ k, ev = Event.setKey k := by
  unfold signInThunk at ho
  split at ho
  · subst ho; simp at hres
  · split at ho
    · subst ho; simp at hres
    · split at ho
      case h_1 sess hsess =>
        split at ho
        · split at ho
          case h_1 store2 evs2 m heq => subst ho; simp at hres
          case h_2 store2 evs2 heq =>
            subst ho
            obtain rfl : AuthPayload.mk sess pid = p := by simpa using hres
            obtain ⟨ha, hu2, hp2, ht, hf, hev⟩ :=
              persistSession_ok _ _ _ _ _ _ heq
            exact ⟨rfl, ha, hu2, hp2, ht, hf, hev⟩
        · subst ho; simp at hres
      case h_2 => subst ho; simp at hres

/-! Claim C4. -/

/-- C4 counterexample: a provider whose session carries no refresh token
makes `signIn` skip the `auth_refresh_token` write, so a stale value left
in that key survives a successful sign-in — not all four keys are written
consistently with the returned session. -/
theorem signIn_partial_persist_counterexample :
    (dispatchSignIn regNoRefreshTok okEnv "credentials" demoCreds
        initialState staleStore).result =
      Except.ok ⟨sessNoRefresh, "credentials"⟩ ∧
    sessNoRefresh.refreshToken = none ∧
    (dispatchSignIn regNoRefreshTok okEnv "credentials" demoCreds
        initialState staleStore).store.refreshToken = some "stale" :=
  ⟨rfl, rfl, rfl⟩

/-- C4 (amended): a successful `signIn` persists the access token, the
serialized user and the provider id, and the refresh-token key exactly
when the returned session carries a truthy refresh token (otherwise that
key is left untouched); every storage write happens strictly before the
reducer publication that advances the in-memory state to authenticated:
the event trace is the set-events followed by the single publish
event. -/
theorem signIn_persist_before_publish_amended (reg : List BaseAuthProvider)
    (env : StorageEnv) (pid : String) (creds : AuthCredentials)
    (st : AuthState) (store : Storage) (p : AuthPayload)
    (hres : (dispatchSignIn reg env pid creds st store).result =
      Except.ok p) :
    (dispatchSignIn reg env pid creds st store).store.accessToken =
      some p.session.accessToken ∧
    (dispatchSignIn reg env pid creds st store).store.userInfo =
      some p.session.user ∧
    (dispatchSignIn reg env pid creds st store).store.providerId =
      some pid ∧
    (strTruthy p.session.refreshToken = true →
      (dispatchSignIn reg env pid creds st store).store.refreshToken =
        p.session.refreshToken) ∧
    (strTruthy p.session.refreshToken = false →
      (dispatchSignIn reg env pid creds st store).store.refreshToken =
        store.refreshToken) ∧
    (dispatchSignIn reg env pid creds st store).state.isAuthenticated =
      true ∧
    (dispatchSignIn reg env pid creds st store).state.session =
      some p.session ∧
    ∃ pre, (dispatchSignIn reg env pid creds st store).events =
        pre ++ [Event.publishAuth] ∧
      ∀ ev ∈ pre, ∃ k, ev = Event.setKey k := by
  unfold dispatchSignIn at hres ⊢
  rcases h : signInThunk reg pid creds env store with ⟨s, e2, r⟩
  rw [h] at hres
  cases r with
  | error e3 => simp at hres
  | ok q =>
    obtain rfl : q = p := by simpa using hres
    obtain ⟨-, ha, hu2, hp2, ht, hf, hev⟩ :=
      signInThunk_ok_shape reg pid creds env store _ q h rfl
    exact ⟨ha, hu2, hp2, ht, hf, rfl, rfl, ⟨e2, rfl, hev⟩⟩

/-- C4 witness: the amended persistence theorem applied to the provider
whose session has no refresh token, over the store with a stale refresh
token. -/
theorem signIn_persist_before_publish_amended_witness :
    (dispatchSignIn regNoRefreshTok okEnv "credentials" demoCreds
        initialState staleStore).store.accessToken = some "T4" ∧
    (dispatchSignIn regNoRefreshTok okEnv "credentials" demoCreds
        initialState staleStore).store.refreshToken = some "stale" := by
  have h := signIn_persist_before_publish_amended regNoRefreshTok okEnv
    "credentials" demoCreds initialState staleStore
    ⟨sessNoRefresh, "credentials"⟩ rfl
  exact ⟨h.1, h.2.2.2.2.1 rfl⟩

/-! Claim C9. -/

/-- C9 counterexample: a provider that reports success with a session
whose access token and user id are both empty gets that session persisted
and exposed unchanged — the slice performs no non-emptiness validation. -/
theorem session_invariant_counterexample :
    (dispatchSignIn regEmpty okEnv "empty" demoCreds initialState
        emptyStorage).state.isAuthenticated = true ∧
    (dispatchSignIn regEmpty okEnv "empty" demoCreds initialState
        emptyStorage).state.session = some emptySession ∧
    emptySession.accessToken = "" ∧
    emptySession.user.id = "" ∧
    (dispatchSignIn regEmpty okEnv "empty" demoCreds initialState
        emptyStorage).store.accessToken = some "" :=
  ⟨rfl, rfl, rfl, rfl, rfl⟩

/-- C9 (amended): every session the slice persists or exposes is exactly
the session the provider returned, with no validation of its fields: a
successful `signIn` stores the session's access token and user verbatim
(empty or not) and publishes the same session in the authenticated
state. -/
theorem session_no_validation_amended (reg : List BaseAuthProvider)
    (env : StorageEnv) (pid : String) (creds : AuthCredentials)
    (st : AuthState) (store : Storage) (p : AuthPayload)
    (hres : (dispatchSignIn reg env pid creds st store).result =
      Except.ok p) :
    (dispatchSignIn reg env pid creds st store).state.session =
      some p.session ∧
    (dispatchSignIn reg env pid creds st store).state.isAuthenticated =
      true ∧
    (dispatchSignIn reg env pid creds st store).store.accessToken =
      some p.session.accessToken ∧
    (dispatchSignIn reg env pid creds st store).store.userInfo =
      some p.session.user := by
  unfold dispatchSignIn at hres ⊢
  rcases h : signInThunk reg pid creds env store with ⟨s, e2, r⟩
  rw [h] at hres
  cases r with
  | error e3 => simp at hres
  | ok q =>
    obtain rfl : q = p := by simpa using hres
    obtain ⟨-, ha, hu2, -, -, -, -⟩ :=
      signInThunk_ok_shape reg pid creds env store _ q h rfl
    exact ⟨rfl, rfl, ha, hu2⟩

/-- C9 witness: the no-validation theorem applied to the provider that
returns the degenerate empty session. -/
theorem session_no_validation_amended_witness :
    (dispatchSignIn regEmpty okEnv "empty" demoCreds initialState
        emptyStorage).state.session = some emptySession := by
  have h := session_no_validation_amended regEmpty okEnv "empty" demoCreds
    initialState emptyStorage ⟨emptySession, "empty"⟩ rfl
  exact h.1

/-! Analysis of the teardown on its success path. -/

/-- With a fault-free remove operation, the teardown clears all four keys
in order. -/
theorem removeAllKeys_ok (env : StorageEnv) (store : Storage)
    (evs : List Event) (hrem : ∀ k, env.removeErr k = none) :
    removeAllKeys env store evs =
      (emptyStorage,
        evs ++ [Event.removeKey ACCESS_TOKEN_KEY,
          Event.removeKey REFRESH_TOKEN_KEY, Event.removeKey USER_KEY,
          Event.removeKey PROVIDER_ID_KEY], none) := by
  unfold removeAllKeys
  simp [hrem, emptyStorage]

/-- With a fault-free remove operation, the sign-out teardown step
resolves `true` with an empty store. -/
theorem signOutClear_ok (env : StorageEnv) (store : Storage)
    (hrem : ∀ k, env.removeErr k = none) :
    signOutClear env store =
      ⟨emptyStorage,
        [Event.removeKey ACCESS_TOKEN_KEY, Event.removeKey REFRESH_TOKEN_KEY,
          Event.removeKey USER_KEY, Event.removeKey PROVIDER_ID_KEY],
        .ok true⟩ := by
  unfold signOutClear
  rw [removeAllKeys_ok env store [] hrem]
  rfl

/-- When the provider's remote call (if one is invoked at all) resolves,
the sign-out thunk reaches the teardown step. -/
theorem signOutThunk_ok (reg : List BaseAuthProvider) (env : StorageEnv)
    (st : AuthState) (store : Storage)
    (hprov : ∀ p, getProvider reg (st.providerId.getD "") = some p →
      ∃ b, p.signOut = Except.ok b) :
    signOutThunk reg env st store = signOutClear env store := by
  unfold signOutThunk
  split
  case isTrue ht =>
    cases hg : getProvider reg (st.providerId.getD "") with
    | some p =>
      obtain ⟨b, hb⟩ := hprov p hg
      simp only [hb]
    | none => rfl
  case isFalse ht => rfl

/-- A sign-out thunk run from a state with no provider id never consults
the registry and, with fault-free removals, clears the store. -/
theorem signOutThunk_noProvider (reg : List BaseAuthProvider)
    (env : StorageEnv) (st : AuthState) (store : Storage)
    (hpid : st.providerId = none) :
    signOutThunk reg env st store = signOutClear env store := by
  unfold signOutThunk
  rw [hpid]
  rfl

/-! Claim C2, amended theorem. -/

/-- C2 (amended): whatever the provider or the storage backend does, the
in-memory state after a `signOut` dispatch is always cleared
(`isAuthenticated = false`, no session, no provider id, not loading); the
storage deletions however short-circuit, so only when the provider's
remote call (if one is made) resolves and every removal succeeds do all
four keys end up cleared — and in that case a second `signOut` leaves the
same cleared state and empty store (idempotence). -/
theorem signOut_teardown_amended :
    (∀ (reg : List BaseAuthProvider) (env : StorageEnv) (st : AuthState)
        (store : Storage),
      (dispatchSignOut reg env st store).state.isAuthenticated = false ∧
      (dispatchSignOut reg env st store).state.session = none ∧
      (dispatchSignOut reg env st store).state.providerId = none ∧
      (dispatchSignOut reg env st store).state.isLoading = false) ∧
    (∀ (reg : List BaseAuthProvider) (env : StorageEnv) (st : AuthState)
        (store : Storage),
      (∀ k, env.removeErr k = none) →
      (∀ p, getProvider reg (st.providerId.getD "") = some p →
        ∃ b, p.signOut = Except.ok b) →
      (dispatchSignOut reg env st store).store = emptyStorage ∧
      (dispatchSignOut reg env (dispatchSignOut reg env st store).state
          (dispatchSignOut reg env st store).store).state =
        (dispatchSignOut reg env st store).state ∧
      (dispatchSignOut reg env (dispatchSignOut reg env st store).state
          (dispatchSignOut reg env st store).store).store =
        emptyStorage) := by
  constructor
  · intro reg env st store
    unfold dispatchSignOut
    dsimp only
    rcases h : signOutThunk reg env (signOutPending st) store with ⟨s, e2, r⟩
    cases r <;> exact ⟨rfl, rfl, rfl, rfl⟩
  · intro reg env st store hrem hprov
    have h1 : signOutThunk reg env (signOutPending st) store =
        signOutClear env store :=
      signOutThunk_ok reg env (signOutPending st) store hprov
    have ho : dispatchSignOut reg env st store =
        ⟨signOutFulfilled (signOutPending st), emptyStorage,
          [Event.removeKey ACCESS_TOKEN_KEY,
            Event.removeKey REFRESH_TOKEN_KEY, Event.removeKey USER_KEY,
            Event.removeKey PROVIDER_ID_KEY, Event.publishDone],
          .ok true⟩ := by
      unfold dispatchSignOut
      dsimp only
      rw [h1, signOutClear_ok env store hrem]
      rfl
    rw [ho]
    refine ⟨rfl, ?_, ?_⟩
    · have h2 : signOutThunk reg env
          (signOutPending (signOutFulfilled (signOutPending st)))
            emptyStorage =
          signOutClear env emptyStorage :=
        signOutThunk_noProvider reg env _ emptyStorage rfl
      unfold dispatchSignOut
      dsimp only
      rw [h2, signOutClear_ok env emptyStorage hrem]
      rfl
    · have h2 : signOutThunk reg env
          (signOutPending (signOutFulfilled (signOutPending st)))
            emptyStorage =
          signOutClear env emptyStorage :=
        signOutThunk_noProvider reg env _ emptyStorage rfl
      unfold dispatchSignOut
      dsimp only
      rw [h2, signOutClear_ok env emptyStorage hrem]

/-- C2 witness: the amended teardown theorem instantiated with the
well-behaved provider, a signed-in state and a fully populated store. -/
theorem signOut_teardown_amended_witness :
    (dispatchSignOut demoReg okEnv demoSignedInState demoFullStorage).store
      = emptyStorage := by
  have h := signOut_teardown_amended.2 demoReg okEnv demoSignedInState
    demoFullStorage (fun _ => rfl) ?_
  · exact h.1
  · intro p hp
    have hp2 : some demoProvider = some p := hp
    injection hp2 with h3
    subst h3
    exact ⟨true, rfl⟩

/-! Claim C3. -/

/-- C3 counterexample: when `refreshSession` fails because the provider
lacks the refresh capability, the store is left fully populated (no key
is cleared) and the rejected reducer leaves `error` at `none` — only the
session fields are reset. -/
theorem refresh_failure_counterexample :
    (dispatchRefresh noRefreshReg okEnv noRefreshState noRefreshStore).store
      = noRefreshStore ∧
    noRefreshStore.accessToken = some "T1" ∧
    (dispatchRefresh noRefreshReg okEnv noRefreshState
        noRefreshStore).state.error = none ∧
    (dispatchRefresh noRefreshReg okEnv noRefreshState
        noRefreshStore).state.isAuthenticated = false ∧
    (dispatchRefresh noRefreshReg okEnv noRefreshState noRefreshStore).result
      = Except.error "Provider norefresh does not support session refresh" :=
  ⟨rfl, rfl, rfl, rfl, rfl⟩

/-- C3 (amended): a `refreshSession` dispatch that fails because the
resolved provider lacks the refresh capability rejects with the
unsupported-refresh message and leaves the in-memory state cleared
(`isAuthenticated = false`, no session, no provider id, not loading) with
`error` untouched; the storage keys are not cleared — the store is
returned unchanged — and a second dispatch reproduces the same cleared
state and the same untouched store. -/
theorem refresh_failure_amended (reg : List BaseAuthProvider)
    (env : StorageEnv) (st : AuthState) (store : Storage) (pid : String)
    (p : BaseAuthProvider)
    (hget : env.getErr REFRESH_TOKEN_KEY = none)
    (hpid : st.providerId = some pid) (hpidne : pid ≠ "")
    (htok : strTruthy store.refreshToken = true)
    (hp : getProvider reg pid = some p)
    (hcap : p.refreshSession = none) :
    (dispatchRefresh reg env st store).result =
      Except.error ("Provider " ++ pid ++ " does not support session refresh") ∧
    (dispatchRefresh reg env st store).store = store ∧
    (dispatchRefresh reg env st store).state =
      { st with
        isLoading := false
        isAuthenticated := false
        session := none
        providerId := none } ∧
    (dispatchRefresh reg env st store).state.error = st.error ∧
    (dispatchRefresh reg env (dispatchRefresh reg env st store).state
        (dispatchRefresh reg env st store).store).state =
      (dispatchRefresh reg env st store).state ∧
    (dispatchRefresh reg env (dispatchRefresh reg env st store).state
        (dispatchRefresh reg env st store).store).store = store := by
  have hmsg : ("Provider " ++ pid ++ " does not support session refresh") ≠ "" :=
    append_ne_empty_left _ _ (append_ne_empty_left "Provider " pid (by decide))
  have hthunk : refreshThunk reg env (refreshPending st) store =
      ⟨store, [],
        .error ("Provider " ++ pid ++ " does not support session refresh")⟩ := by
    unfold refreshThunk
    rw [hget]
    have h1 : (refreshPending st).providerId = some pid := by
      simp [refreshPending, hpid]
    rw [h1, htok]
    simp [strTruthy, hpidne, hp, hcap, Option.getD, jsOr_of_ne _ _ hmsg]
  have ho : dispatchRefresh reg env st store =
      ⟨{ st with
          isLoading := false
          isAuthenticated := false
          session := none
          providerId := none },
        store, [Event.publishDone],
        .error ("Provider " ++ pid ++ " does not support session refresh")⟩ := by
    unfold dispatchRefresh
    dsimp only
    rw [hthunk]
    rfl
  rw [ho]
  have hthunk2 : refreshThunk reg env
      (refreshPending { st with
        isLoading := false
        isAuthenticated := false
        session := none
        providerId := none }) store =
      ⟨store, [], .error (jsOr "No active session found" "Token refresh failed")⟩ := by
    unfold refreshThunk
    rw [hget]
    simp [refreshPending, strTruthy]
  have ho2 : dispatchRefresh reg env
      { st with
        isLoading := false
        isAuthenticated := false
        session := none
        providerId := none } store =
      ⟨{ st with
          isLoading := false
          isAuthenticated := false
          session := none
          providerId := none },
        store, [Event.publishDone],
        .error (jsOr "No active session found" "Token refresh failed")⟩ := by
    unfold dispatchRefresh
    dsimp only
    rw [hthunk2]
    rfl
  rw [ho2]
  exact ⟨rfl, rfl, rfl, rfl, rfl, rfl⟩

/-- C3 witness: the amended refresh-failure theorem applied to the
provider registered without the refresh capability, from the signed-in
state over the fully populated store. -/
theorem refresh_failure_amended_witness :
    (dispatchRefresh noRefreshReg okEnv noRefreshState noRefreshStore).store
      = noRefreshStore ∧
    (dispatchRefresh noRefreshReg okEnv noRefreshState
        noRefreshStore).state.error = none := by
  have h := refresh_failure_amended noRefreshReg okEnv noRefreshState
    noRefreshStore "norefresh" noRefreshProvider rfl rfl (by decide) rfl rfl rfl
  exact ⟨h.2.1, h.2.2.2.1⟩

/-! Analysis of the restore path. -/

/-- Fault-free environments answer `none` for every injected get error. -/
theorem okEnvAt_getErr (now : Int) (k : String) :
    (okEnvAt now).getErr k = none := rfl

/-- Fault-free environments answer `none` for every injected set error. -/
theorem okEnvAt_setErr (now : Int) (k : String) :
    (okEnvAt now).setErr k = none := rfl

/-- Fault-free environments answer `none` for every injected remove
error. -/
theorem okEnvAt_removeErr (now : Int) (k : String) :
    (okEnvAt now).removeErr k = none := rfl

/-- The clock of a fault-free environment. -/
theorem okEnvAt_now (now : Int) : (okEnvAt now).now = now := rfl

/-- The restored refresh token is the stored one exactly when it is a
truthy string. -/
theorem jsOrUndef_eq (x : Option String) :
    jsOrUndef x = if strTruthy x then x else none := by
  cases x with
  | none => rfl
  | some r => by_cases hr : r = "" <;> simp [jsOrUndef, strTruthy, hr]

/-- `checkAuth` on a store holding a truthy access token, a user record
without the `expiresAt` extra, and a truthy provider id, fulfills with the
session rebuilt from storage (no session-level expiry) and touches
nothing. -/
theorem dispatchCheckAuth_restores (reg : List BaseAuthProvider) (now : Int)
    (st : AuthState) (store : Storage) (acc : String) (u : AuthUser)
    (pid : String)
    (ha : store.accessToken = some acc) (hane : acc ≠ "")
    (hu : store.userInfo = some u) (hexp : u.expiresAt = none)
    (hpids : store.providerId = some pid) (hpidne : pid ≠ "") :
    dispatchCheckAuth reg (okEnvAt now) st store =
      ⟨checkAuthFulfilled (checkAuthPending st)
          ⟨{ user := u
             accessToken := acc
             refreshToken := jsOrUndef store.refreshToken
             expiresAt := none }, pid⟩,
        store, [Event.publishAuth],
        .ok ⟨{ user := u
               accessToken := acc
               refreshToken := jsOrUndef store.refreshToken
               expiresAt := none }, pid⟩⟩ := by
  unfold dispatchCheckAuth
  rw [ha, hu, hpids]
  simp [okEnvAt, hane, hpidne, hexp]

/-! Claim C5. -/

/-- C5 counterexample: the session returned by `signIn` carries a
session-level `expiresAt`, but that field is never persisted, so the
session reproduced by an immediately following `checkAuth` differs from
the signed-in one — its `expiresAt` is gone. -/
theorem restore_roundtrip_counterexample :
    (dispatchSignIn regWithExpiry okEnv "credentials" demoCreds initialState
        emptyStorage).result = Except.ok ⟨sessWithExpiry, "credentials"⟩ ∧
    sessWithExpiry.expiresAt = some 999999 ∧
    (dispatchCheckAuth regWithExpiry okEnv
        (dispatchSignIn regWithExpiry okEnv "credentials" demoCreds
          initialState emptyStorage).state
        (dispatchSignIn regWithExpiry okEnv "credentials" demoCreds
          initialState emptyStorage).store).result =
      Except.ok ⟨restoredDemoSession, "credentials"⟩ ∧
    restoredDemoSession.expiresAt = none ∧
    restoredDemoSession ≠ sessWithExpiry :=
  ⟨rfl, rfl, rfl, rfl, by decide⟩

/-- C5 (amended): an immediately following `checkAuth` after a successful
`signIn` (fault-free storage, refresh-token key initially absent)
reproduces the access token byte-for-byte, the same user record, and the
refresh token exactly when the signed-in session carried a truthy one —
but not the session-level `expiresAt`, which is not persisted: the
restored session always has `expiresAt = none`. -/
theorem restore_roundtrip_amended (reg : List BaseAuthProvider)
    (pid : String) (creds : AuthCredentials) (st : AuthState)
    (store : Storage) (now : Int) (p : AuthPayload)
    (hstore : store.refreshToken = none)
    (hres : (dispatchSignIn reg (okEnvAt now) pid creds st store).result =
      Except.ok p)
    (hexp : p.session.user.expiresAt = none)
    (hacc : p.session.accessToken ≠ "") (hpidne : pid ≠ "") :
    (dispatchCheckAuth reg (okEnvAt now)
        (dispatchSignIn reg (okEnvAt now) pid creds st store).state
        (dispatchSignIn reg (okEnvAt now) pid creds st store).store).result =
      Except.ok
        ⟨{ user := p.session.user
           accessToken := p.session.accessToken
           refreshToken :=
             if strTruthy p.session.refreshToken then p.session.refreshToken
             else none
           expiresAt := none }, pid⟩ ∧
    (dispatchCheckAuth reg (okEnvAt now)
        (dispatchSignIn reg (okEnvAt now) pid creds st store).state
        (dispatchSignIn reg (okEnvAt now) pid creds st store).store
          ).state.isAuthenticated = true := by
  unfold dispatchSignIn at hres ⊢
  rcases h : signInThunk reg pid creds (okEnvAt now) store with ⟨s, e2, r⟩
  rw [h] at hres
  cases r with
  | error e3 => simp at hres
  | ok q =>
    obtain rfl : q = p := by simpa using hres
    obtain ⟨-, ha, hu2, hp2, ht, hf, -⟩ :=
      signInThunk_ok_shape reg pid creds (okEnvAt now) store _ q h rfl
    have hca := dispatchCheckAuth_restores reg now
      (signInFulfilled (signInPending st) q) s q.session.accessToken
      q.session.user pid ha hacc hu2 hexp hp2 hpidne
    have hrt : jsOrUndef s.refreshToken =
        if strTruthy q.session.refreshToken then q.session.refreshToken
        else none := by
      cases htr : strTruthy q.session.refreshToken with
      | true => rw [ht htr, jsOrUndef_eq, htr]
      | false => rw [hf htr, hstore]; rfl
    dsimp only
    rw [hca, hrt]
    exact ⟨rfl, rfl⟩

/-- C5 witness: the amended round-trip theorem applied to the
well-behaved provider from the initial state over empty storage. -/
theorem restore_roundtrip_amended_witness :
    (dispatchCheckAuth demoReg (okEnvAt 0)
        (dispatchSignIn demoReg (okEnvAt 0) "credentials" demoCreds
          initialState emptyStorage).state
        (dispatchSignIn demoReg (okEnvAt 0) "credentials" demoCreds
          initialState emptyStorage).store).result =
      Except.ok ⟨restoredDemoSession, "credentials"⟩ := by
  have h := restore_roundtrip_amended demoReg "credentials" demoCreds
    initialState emptyStorage 0 ⟨demoSession, "credentials"⟩ rfl rfl rfl
    (by decide) (by decide)
  exact h.1

/-! Claim C6. -/

/-- With a fault-free set operation the shared persistence never fails. -/
theorem persistCommon_okEnv_exists (env : StorageEnv)
    (hset : ∀ k, env.setErr k = none) (sess : AuthSession)
    (store : Storage) :
    ∃ store2 evs2, persistCommon env sess store = (store2, evs2, none) := by
  unfold persistCommon persistRefreshTok persistUser
  simp only [hset]
  split
  · exact ⟨_, _, rfl⟩
  · exact ⟨_, _, rfl⟩

/-- C6 counterexample: the §8 scenario. The provider's session has
`expiresAt` in the past at clock 5000 and the provider supports refresh
to token `T2`, yet the restore after sign-in fulfills with the old token
`T1`: the expiry check reads `user.expiresAt`, which was never set, so no
delegation to `refreshSession` happens and storage keeps `T1`. -/
theorem restore_expired_no_delegation_counterexample :
    (dispatchSignIn regScenario (okEnvAt 5000) "credentials" demoCreds
        initialState emptyStorage).result =
      Except.ok ⟨sessExpired, "credentials"⟩ ∧
    sessExpired.expiresAt = some 4000 ∧
    ((4000 : Int) < 5000) ∧
    sessRefreshed.accessToken = "T2" ∧
    (dispatchCheckAuth regScenario (okEnvAt 5000)
        (dispatchSignIn regScenario (okEnvAt 5000) "credentials" demoCreds
          initialState emptyStorage).state
        (dispatchSignIn regScenario (okEnvAt 5000) "credentials" demoCreds
          initialState emptyStorage).store).result =
      Except.ok ⟨restoredDemoSession, "credentials"⟩ ∧
    restoredDemoSession.accessToken = "T1" ∧
    (dispatchCheckAuth regScenario (okEnvAt 5000)
        (dispatchSignIn regScenario (okEnvAt 5000) "credentials" demoCreds
          initialState emptyStorage).state
        (dispatchSignIn regScenario (okEnvAt 5000) "credentials" demoCreds
          initialState emptyStorage).store).store.accessToken = some "T1" :=
  ⟨rfl, rfl, by decide, rfl, rfl, rfl, rfl⟩

/-- C6 (amended): the restore expiry check reads the `expiresAt` extra of
the deserialized `user` record, not the (never persisted) session-level
`expiresAt`. When the stored user's `expiresAt` is nonzero and in the
past: with a truthy stored refresh token and an in-memory provider id
resolving to a provider whose refresh succeeds with a new session, the
restore delegates to `refreshSession` and ends authenticated with the new
access token in state and storage; without a stored refresh token, the
restore clears all four keys and ends unauthenticated with the
session-expired error. -/
theorem restore_expiry_amended :
    (∀ (reg : List BaseAuthProvider) (st : AuthState) (store : Storage)
        (pid acc rt : String) (u : AuthUser) (e now : Int)
        (p : BaseAuthProvider)
        (f : String → Except String AuthResponse) (sess2 : AuthSession),
      store.accessToken = some acc → acc ≠ "" →
      store.userInfo = some u → u.expiresAt = some e → e ≠ 0 → e < now →
      store.providerId = some pid → pid ≠ "" →
      store.refreshToken = some rt → rt ≠ "" →
      st.providerId = some pid →
      getProvider reg pid = some p → p.refreshSession = some f →
      f rt = Except.ok { success := true, session := some sess2 } →
      (dispatchCheckAuth reg (okEnvAt now) st store).result =
        Except.ok ⟨sess2, pid⟩ ∧
      (dispatchCheckAuth reg (okEnvAt now) st store).state.isAuthenticated
        = true ∧
      (dispatchCheckAuth reg (okEnvAt now) st store).state.session =
        some sess2 ∧
      (dispatchCheckAuth reg (okEnvAt now) st store).store.accessToken =
        some sess2.accessToken) ∧
    (∀ (reg : List BaseAuthProvider) (st : AuthState) (store : Storage)
        (pid acc : String) (u : AuthUser) (e now : Int),
      store.accessToken = some acc → acc ≠ "" →
      store.userInfo = some u → u.expiresAt = some e → e ≠ 0 → e < now →
      store.providerId = some pid → pid ≠ "" →
      store.refreshToken = none →
      (dispatchCheckAuth reg (okEnvAt now) st store).store = emptyStorage ∧
      (dispatchCheckAuth reg (okEnvAt now) st store).state.isAuthenticated
        = false ∧
      (dispatchCheckAuth reg (okEnvAt now) st store).state.session = none ∧
      (dispatchCheckAuth reg (okEnvAt now) st store).result =
        Except.error "Session expired") := by
  constructor
  · intro reg st store pid acc rt u e now p f sess2 ha hane hu hue he0 hlt
      hpids hpidne hrt hrtne hstpid hp hpf hf
    obtain ⟨store2, evs2, hpc⟩ :=
      persistCommon_okEnv_exists (okEnvAt now) (fun _ => rfl) sess2 store
    have hacc2 : store2.accessToken = some sess2.accessToken :=
      (persistCommon_ok (okEnvAt now) sess2 store store2 evs2 hpc).1
    have hpid1 : (refreshPending (checkAuthPending st)).providerId =
        some pid := by
      simp [refreshPending, checkAuthPending, hstpid]
    have hrthunk : refreshThunk reg (okEnvAt now)
        (refreshPending (checkAuthPending st)) store =
        ⟨store2, evs2, .ok ⟨sess2, pid⟩⟩ := by
      unfold refreshThunk
      rw [hpid1, hrt]
      simp [okEnvAt_getErr, strTruthy, hpidne, hrtne, hp, hpf, hf, hpc]
    have hdr : dispatchRefresh reg (okEnvAt now) (checkAuthPending st)
        store =
        ⟨refreshFulfilled (refreshPending (checkAuthPending st))
            ⟨sess2, pid⟩,
          store2, evs2 ++ [Event.publishAuth], .ok ⟨sess2, pid⟩⟩ := by
      unfold dispatchRefresh
      dsimp only
      rw [hrthunk]
    have hmain : dispatchCheckAuth reg (okEnvAt now) st store =
        ⟨checkAuthFulfilled
            (refreshFulfilled (refreshPending (checkAuthPending st))
              ⟨sess2, pid⟩)
            ⟨sess2, pid⟩,
          store2, (evs2 ++ [Event.publishAuth]) ++ [Event.publishAuth],
          .ok ⟨sess2, pid⟩⟩ := by
      unfold dispatchCheckAuth
      rw [ha, hu, hpids, hrt]
      simp [okEnvAt_getErr, okEnvAt_now, strTruthy, hane, hpidne, hrtne,
        he0, isTokenExpired, hlt, hue, hdr]
    rw [hmain]
    exact ⟨rfl, rfl, rfl, hacc2⟩
  · intro reg st store pid acc u e now ha hane hu hue he0 hlt hpids hpidne
      hrt0
    have hmain : dispatchCheckAuth reg (okEnvAt now) st store =
        ⟨checkAuthRejected (checkAuthPending st), emptyStorage,
          [Event.removeKey ACCESS_TOKEN_KEY,
            Event.removeKey REFRESH_TOKEN_KEY, Event.removeKey USER_KEY,
            Event.removeKey PROVIDER_ID_KEY, Event.publishDone],
          .error "Session expired"⟩ := by
      unfold dispatchCheckAuth checkAuthCatch
      rw [ha, hu, hpids, hrt0]
      rw [removeAllKeys_ok (okEnvAt now) store [] (fun _ => rfl)]
      simp [okEnvAt_getErr, okEnvAt_now, strTruthy, hane, hpidne, he0,
        isTokenExpired, hlt, hue,
        jsOr_of_ne "Session expired" _ (by decide)]
    rw [hmain]
    exact ⟨rfl, rfl, rfl, rfl⟩

/-- C6 witness: the amended expiry theorem applied to the §8 scenario
provider over the store whose user record is expired at clock 5000, from
the signed-in state. -/
theorem restore_expiry_amended_witness :
    (dispatchCheckAuth regScenario (okEnvAt 5000) demoSignedInState
        expiredUserStore).result =
      Except.ok ⟨sessRefreshed, "credentials"⟩ := by
  have h := restore_expiry_amended.1 regScenario demoSignedInState
    expiredUserStore "credentials" "T1" "R1" expiredUser 4000 5000
    provScenario
    (fun _ => Except.ok { success := true, session := some sessRefreshed })
    sessRefreshed rfl (by decide) rfl rfl (by decide) (by decide) rfl
    (by decide) rfl (by decide) rfl rfl rfl rfl
  exact h.1

end GluestackAuth
